import Mathlib

/-!
Verification development for the `asg-spot-manager` repository
(`src/asg-spot-manager.py`), a reconciliation controller that keeps
autoscaling groups (ASGs) on the cheaper of spot vs on-demand capacity.

The Python source is shallowly embedded below.  Conventions:

* Python dicts that the source treats as records (`asg_dict`, launch
  configurations, spot requests, the pricing feed) become Lean structures;
  a key the source may `pop` or that may be absent becomes an `Option` field.
* Prices are modelled as `ℚ` where the source compares numbers
  (`float(...)` values), and as `String` where the source passes the raw
  feed text through (inside `get_od_price_from_response`).
* Fallible Python code is embedded in `Except PyError`; an uncaught Python
  exception (TypeError, KeyError, ValueError, UnboundLocalError) is an
  `Except.error`.
* AWS calls become explicit inputs: the environment `Env` carries the
  data those calls would return (launch-configuration list, spot-request
  list, per-zone spot-quote results, the resolved on-demand price).
-/

namespace ASM

/-- Python errors that the embedded code can raise. -/
inductive PyError where
  | typeError
  | keyError
  | valueError
  | unboundLocal
  deriving DecidableEq, Repr

/-- A `{Key, Value}` tag dict as it appears on ASGs and spot requests. -/
structure Tag where
  key : String
  value : String
  deriving DecidableEq, Repr

/-- A launch configuration record (`describe_launch_configurations` entry).
`spotPrice` models the optional `SpotPrice` key (present iff the key is in
the dict); `createdTime` models `CreatedTime` (popped from clones before
re-creation, hence optional); `arn` models `LaunchConfigurationARN`.
Other provider fields that the source copies through unchanged and never
inspects are omitted.  Timestamps are seconds as `ℚ`. -/
structure LaunchConfig where
  name : String
  instanceType : String
  spotPrice : Option ℚ
  createdTime : Option ℚ
  userData : String
  monitoringEnabled : Bool
  arn : Option String
  deriving DecidableEq, Repr

/-- An autoscaling-group record (`asg_dict` in the source), together with
the group-level metrics-collection flag that `disable_metrics_collection`
clears. -/
structure ASG where
  name : String
  lcName : String
  zones : List String
  tags : List Tag
  metricsEnabled : Bool
  deriving DecidableEq, Repr

/-- The `Status` sub-dict of a spot instance request. -/
structure SpotRequestStatus where
  code : String
  updateTime : ℚ
  deriving DecidableEq, Repr

/-- A spot instance request record; `tags` is `none` when the record has no
`Tags` key (`request.get('Tags')` returns `None`). -/
structure SpotRequest where
  tags : Option (List Tag)
  status : SpotRequestStatus
  deriving DecidableEq, Repr

/-- The provider-visible environment of one reconciliation cycle: the data
the AWS calls in the source would return.  `zoneQuote itype zone` models
`describe_spot_price_history` (latest Linux/UNIX VPC quote), `none` meaning
the call raised a `ClientError`; `odPriceOf itype` models
`get_lc_on_demand_price` on a well-formed pricing feed (the feed lookup and
repair parser themselves are embedded separately below);
`b64decode` models `base64.decodebytes(... .encode()).decode()`. -/
structure Env where
  now : ℚ
  launchConfigs : List LaunchConfig
  spotRequests : List SpotRequest
  zoneQuote : String → String → Option ℚ
  odPriceOf : String → ℚ
  b64decode : String → String

/-- Which migration action `manage_group` invokes for a group. -/
inductive Decision where
  | noAction
  | toSpot
  | toOnDemand
  deriving DecidableEq, Repr

/-- Embeds `get_launch_config` (source lines 175-184): first launch
configuration whose name matches, `none` for the source's `return False`. -/
def get_launch_config (env : Env) (name : String) : Option LaunchConfig :=
  env.launchConfigs.find? (fun lc => lc.name = name)

/-- Embeds `is_asg_currently_spot` (lines 132-139): `'SpotPrice' in config`.
When the launch configuration is missing, `config` is the bool `False` and
`'SpotPrice' in False` raises `TypeError`. -/
def is_asg_currently_spot (env : Env) (asg : ASG) : Except PyError Bool :=
  match get_launch_config env asg.lcName with
  | none => .error .typeError
  | some config => .ok config.spotPrice.isSome

/-- Embeds `time_since_lc_update` (lines 89-97).  A missing launch
configuration makes `config['CreatedTime']` subscript the bool `False`
(TypeError); a clone-shaped record without the key would raise `KeyError`. -/
def time_since_lc_update (env : Env) (asg : ASG) : Except PyError ℚ :=
  match get_launch_config env asg.lcName with
  | none => .error .typeError
  | some config =>
    match config.createdTime with
    | none => .error .keyError
    | some t => .ok (env.now - t)

/-- The fixed `denial_statuses` list from `ASG_spot_manager.__init__`
(lines 35-40). -/
def denial_statuses : List String :=
  ["capacity-not-available",
   "capacity-oversubscribed",
   "instance-terminated-by-price",
   "instance-terminated-capacity-oversubscribed",
   "instance-terminated-no-capacity",
   "price-too-low"]

/-- One spot request carries the back-reference tag for the group: the inner
loop of `check_spot_requests` (lines 150-158), which appends the request on
the first tag with key `launched-for-asg` and value equal to the group name.
Requests without a `Tags` key are skipped (`request.get('Tags')` is falsy). -/
def request_tag_matches (asg_name : String) (r : SpotRequest) : Bool :=
  match r.tags with
  | none => false
  | some tags => tags.any (fun t => t.key = "launched-for-asg" && t.value = asg_name)

/-- Embeds `check_spot_requests` (lines 141-173): filter the visible spot
requests to those tagged for the group; if none, return `False`; otherwise
return `True` on the first request whose status update is strictly inside
the lookback window and whose code is in `denial_statuses`. -/
def check_spot_requests (env : Env) (lookback : ℚ) (asg_name : String) : Bool :=
  let asg_requests := env.spotRequests.filter (request_tag_matches asg_name)
  if asg_requests.isEmpty then false
  else asg_requests.any fun r =>
    decide (env.now - r.status.updateTime < lookback) && decide (r.status.code ∈ denial_statuses)

/-- Embeds `get_zone_spot_prices` (lines 417-431): per-zone lookup of the
most recent spot quote; a zone whose call raises `ClientError`
(`zoneQuote _ _ = none`) is logged and dropped from the result list. -/
def get_zone_spot_prices (env : Env) (instance_type : String) (zones : List String) : List ℚ :=
  zones.filterMap (fun zone => env.zoneQuote instance_type zone)

/-- Python's `min` over a list: `ValueError` (here `none`) on an empty
sequence. -/
def pyMin : List ℚ → Option ℚ
  | [] => none
  | p :: ps => some (ps.foldl min p)

/-- Embeds `is_spot_greater_than_on_demand` (lines 99-112).  `min(...)` of
an empty price list raises `ValueError`; the comparison is the source's
strict `spot_zone_min > float(od_price)`.  (`spot_zone_max` is computed by
the source but never used.) -/
def is_spot_greater_than_on_demand (env : Env) (asg : ASG) : Except PyError Bool :=
  match get_launch_config env asg.lcName with
  | none => .error .typeError
  | some config =>
    let spot_prices := get_zone_spot_prices env config.instanceType asg.zones
    match pyMin spot_prices with
    | none => .error .valueError
    | some spot_zone_min =>
      let od_price := env.odPriceOf config.instanceType
      if spot_zone_min > od_price then .ok true else .ok false

/-- Embeds the decision logic of `manage_group` (lines 54-87); the returned
`Decision` records which migration routine the source invokes (the
migrations themselves are embedded below as `switch_to_spot` and
`switch_to_on_demand`). -/
def manage_group (env : Env) (lookback lc_switching_delay : ℚ) (asg : ASG) :
    Except PyError Decision := do
  let is_spot ← is_asg_currently_spot env asg
  if is_spot then
    let spot_failure := check_spot_requests env lookback asg.name
    if spot_failure then pure Decision.toOnDemand
    else pure Decision.noAction
  else
    let gt ← is_spot_greater_than_on_demand env asg
    if gt then pure Decision.noAction
    else
      let age ← time_since_lc_update env asg
      if age > lc_switching_delay then pure Decision.toSpot
      else pure Decision.noAction

/-- Python `s.endswith('*')`. -/
def pyEndsWithStar (s : String) : Bool := s.toList.getLast? = some '*'

/-- The char-list body of Python `s.strip('*')`: remove every leading and
every trailing `'*'` (both ends, all occurrences — not just one). -/
def stripStarL (l : List Char) : List Char :=
  ((l.dropWhile (fun c => c = '*')).reverse.dropWhile (fun c => c = '*')).reverse

/-- Python `s.strip('*')`. -/
def pyStripStar (s : String) : String := String.mk (stripStarL s.toList)

/-- The clone-name derivation shared by `switch_to_on_demand` (lines
199-206) and `switch_to_spot` (lines 263-270):
`old.strip('*')` when the name ends with `'*'`, else `old + '*'`. -/
def toggle_lc_name (s : String) : String :=
  if pyEndsWithStar s then pyStripStar s else s ++ "*"

/-- Models the `{k: v for k, v in config.items() if v}` empty-value filter
in the switch routines.  On this record type the only droppable key it can
affect is an empty-string ARN; `SpotPrice` is popped/assigned only after
the filter runs, and the mandatory string fields (name, instance type,
user data) are checked where the source would subscript the missing key. -/
def removeEmpty (cfg : LaunchConfig) : LaunchConfig :=
  { cfg with arn := if cfg.arn = some "" then none else cfg.arn }

/-- Embeds `create_launch_configuration`: the provider registers the clone
(assigning it a fresh creation time) — but creation is asynchronous and the
new record may not yet be visible to the verification re-fetch, which the
`visible` flag models (spec §5: eventual visibility of new templates). -/
def create_launch_configuration (env : Env) (visible : Bool) (clone : LaunchConfig) : Env :=
  if visible then
    { env with launchConfigs := env.launchConfigs ++ [{ clone with createdTime := some env.now }] }
  else env

/-- Embeds `delete_launch_configuration`: drop the named configuration. -/
def delete_launch_configuration (env : Env) (name : String) : Env :=
  { env with launchConfigs := env.launchConfigs.filter (fun lc => lc.name ≠ name) }

/-- Embeds `switch_to_spot` (lines 245-308).  Steps, in source order: look
up the current configuration (a missing one makes `get_lc_on_demand_price`
subscript the bool `False` — TypeError); resolve the on-demand price; drop
empty values; toggle the name; decode the user data (an empty `UserData`
would have been dropped by the filter, making `config['UserData']` a
KeyError); pop ARN/CreatedTime; set `SpotPrice` to the on-demand price;
create the clone; verify it by re-fetching the new name, aborting (plain
`return`) if absent; conditionally disable group metrics; repoint the
group; delete the old configuration. -/
def switch_to_spot (env : Env) (asg : ASG) (visible : Bool) :
    Except PyError (Env × ASG) :=
  match get_launch_config env asg.lcName with
  | none => .error .typeError
  | some config0 =>
    let od_price := env.odPriceOf config0.instanceType
    let config := removeEmpty config0
    if config.name = "" then .error .keyError
    else
    let old_lc_name := config.name
    let new_lc_name := toggle_lc_name old_lc_name
    if config.userData = "" then .error .keyError
    else
    let clone : LaunchConfig :=
      { config with
        name := new_lc_name
        userData := env.b64decode config.userData
        arn := none
        createdTime := none
        spotPrice := some od_price }
    let env1 := create_launch_configuration env visible clone
    match get_launch_config env1 new_lc_name with
    | none => .ok (env1, asg)
    | some _ =>
      let asg1 := if clone.monitoringEnabled then asg else { asg with metricsEnabled := false }
      let asg2 := { asg1 with lcName := new_lc_name }
      let env2 := delete_launch_configuration env1 old_lc_name
      .ok (env2, asg2)

/-- Embeds `switch_to_on_demand` (lines 186-243): identical workflow except
that no price is resolved and the clone's `SpotPrice` key is popped rather
than set (a missing configuration here makes `config.items()` an
AttributeError on `False`, still an uncaught TypeError-class crash, which we
collapse into `typeError`). -/
def switch_to_on_demand (env : Env) (asg : ASG) (visible : Bool) :
    Except PyError (Env × ASG) :=
  match get_launch_config env asg.lcName with
  | none => .error .typeError
  | some config0 =>
    let config := removeEmpty config0
    if config.name = "" then .error .keyError
    else
    let old_lc_name := config.name
    let new_lc_name := toggle_lc_name old_lc_name
    if config.userData = "" then .error .keyError
    else
    let clone : LaunchConfig :=
      { config with
        name := new_lc_name
        userData := env.b64decode config.userData
        arn := none
        createdTime := none
        spotPrice := none }
    let env1 := create_launch_configuration env visible clone
    match get_launch_config env1 new_lc_name with
    | none => .ok (env1, asg)
    | some _ =>
      let asg1 := if clone.monitoringEnabled then asg else { asg with metricsEnabled := false }
      let asg2 := { asg1 with lcName := new_lc_name }
      let env2 := delete_launch_configuration env1 old_lc_name
      .ok (env2, asg2)

/-- Embeds `build_tagged_ASG_list` (lines 114-130): groups having a tag with
the configured key and value `"true"`. -/
def build_tagged_ASG_list (asgTag : String) (groups : List ASG) : List ASG :=
  groups.filter (fun g => g.tags.any (fun t => t.key = asgTag && t.value = "true"))

/-- Embeds `run` (lines 44-52): iterate `manage_group` over the tagged
groups in order.  There is no exception handling in the loop, so an error
raised while managing one group aborts the whole iteration; the returned
list records the decisions of the groups actually processed. -/
def run (env : Env) (asgTag : String) (lookback lc_switching_delay : ℚ)
    (groups : List ASG) : Except PyError (List Decision) :=
  (build_tagged_ASG_list asgTag groups).foldlM
    (fun acc asg => do
      let d ← manage_group env lookback lc_switching_delay asg
      pure (acc ++ [d]))
    []

/-- One `sizes` entry of the pricing feed; `priceUSD` models
`size['valueColumns'][0]['prices']['USD']` (the raw feed string). -/
structure PriceSize where
  size : String
  priceUSD : String
  deriving DecidableEq, Repr

/-- One `instanceTypes` entry (an instance-type family) of the pricing feed. -/
structure PriceInstanceType where
  sizes : List PriceSize
  deriving DecidableEq, Repr

/-- One `regions` entry of the pricing feed. -/
structure PriceRegion where
  region : String
  instanceTypes : List PriceInstanceType
  deriving DecidableEq, Repr

/-- The decoded pricing feed; `regions` models
`response['config']['regions']`. -/
structure PriceFeed where
  regions : List PriceRegion
  deriving DecidableEq, Repr

/-- The second loop of `get_od_price_from_response` (lines 328-336), with
the Python local `od_price` made explicit as an `Option`: each family
updates it with the price of its first size matching `instance_type`
(keeping the previous value otherwise), then `if not od_price` reads it —
an `UnboundLocalError` if it was never assigned, a `return False`
(here `.ok none`) if it is the empty string; after the loop,
`return od_price` likewise reads it. -/
def od_price_loop (instance_type : String) :
    List PriceInstanceType → Option String → Except PyError (Option String)
  | [], od =>
    match od with
    | none => .error .unboundLocal
    | some p => .ok (some p)
  | ty :: tys, od =>
    let od' := ((ty.sizes.find? (fun s => s.size = instance_type)).map (fun s => s.priceUSD)).orElse
      (fun _ => od)
    match od' with
    | none => .error .unboundLocal
    | some p => if p = "" then .ok none else od_price_loop instance_type tys od'

/-- Embeds `get_od_price_from_response` (lines 317-338).  The first loop
binds the local `types` only when a region matches, so `if not types`
raises `UnboundLocalError` when the configured region is absent from the
feed; a matching region with an empty family list prints the error and
returns `False` (here `.ok none`); otherwise the second loop runs
(`od_price_loop`). -/
def get_od_price_from_response (feed : PriceFeed) (ASG_region : String)
    (instance_type : String) : Except PyError (Option String) :=
  match feed.regions.find? (fun r => r.region = ASG_region) with
  | none => .error .unboundLocal
  | some r =>
    let types := r.instanceTypes
    if types.isEmpty then .ok none
    else od_price_loop instance_type types none

/-- The single-quote character (written via its code point to keep string
literals free of quote characters). -/
def squote : Char := Char.ofNat 39

/-- The opening-brace character. -/
def lbrace : Char := Char.ofNat 123

/-- The closing-brace character. -/
def rbrace : Char := Char.ofNat 125

/-- First index at which `needle` occurs in the remaining list (offset by
`i`). -/
def firstOccGo (needle : List Char) : List Char → Nat → Option Nat
  | [], i => if needle.isPrefixOf ([] : List Char) then some i else none
  | c :: rest, i =>
    if needle.isPrefixOf (c :: rest) then some i else firstOccGo needle rest (i + 1)

/-- Last index `≥ start` at which `needle` occurs in `hay`. -/
def lastOccFrom (hay needle : List Char) (start : Nat) : Option Nat :=
  ((List.range (hay.length + 1)).filter
    (fun i => start ≤ i ∧ needle.isPrefixOf (hay.drop i))).getLast?

/-- Embeds `re.sub(re.compile(r'/\x2a.\x2a\x2a/\n', re.DOTALL), '', request)`
(line 348): with the DOTALL greedy wildcard, the leftmost-longest match runs
from the first occurrence of the comment opener to the last occurrence of
the comment closer followed by a newline; no match leaves the text
unchanged. -/
def strip_initial_comment (s : String) : String :=
  let l := s.toList
  match firstOccGo ['/', '*'] l 0 with
  | none => s
  | some i =>
    match lastOccFrom l ['*', '/', '\n'] (i + 2) with
    | none => s
    | some j => String.mk (l.take i ++ l.drop (j + 3))

/-- Embeds `re.sub(r'^callback\(', '', ...)` (line 350): drop the literal
wrapper head when present. -/
def strip_callback_wrapper (s : String) : String :=
  let l := s.toList
  let cb := String.toList "callback("
  if cb.isPrefixOf l then String.mk (l.drop cb.length) else s

/-- Embeds `re.sub(r'\);\x2a$', '', ...)` as written in line 352 (a close
paren, then any number of semicolons, anchored at the end of the text or
just before one trailing newline). -/
def strip_close_suffix (s : String) : String :=
  let l := s.toList
  let keep : List Char := if l.getLast? = some '\n' then ['\n'] else []
  let body := if l.getLast? = some '\n' then l.dropLast else l
  match body.reverse.dropWhile (fun c => c = ';') with
  | ')' :: r2 => String.mk (r2.reverse ++ keep)
  | _ => s

/-- Token categories of the Python `tokenize`/`token` modules used by
`fixup_js_literal_with_comments` (NEWLINE and NL are both produced for line
ends and are treated identically by the source). -/
inductive Tok where
  | NAME
  | NUMBER
  | STRING
  | OP
  | NEWLINE
  | NL
  | ENDMARKER
  | ERRTOK
  deriving DecidableEq, Repr

/-- An identifier character for the tokenizer. -/
def isNameChar (c : Char) : Bool := c.isAlpha || c.isDigit || c = '_'

/-- Whether `a` then `b` form one two-character Python operator token
(maximal munch); in particular the line-comment introducer is a single
floor-division token, while the block-comment delimiters are not operators
and tokenize as two one-character tokens. -/
def tok_two (a b : Char) : Bool :=
  (a = '/' && b = '/') || (a = '*' && b = '*') ||
  (b = '=' && (a = '=' || a = '<' || a = '>' || a = '!' || a = '/' || a = '*' || a = '+' || a = '-'))

/-- Models CPython `tokenize.generate_tokens` on the character subset the
pricing feed uses: whitespace separates tokens, a newline yields a
NEWLINE token, identifiers and numbers munch maximally, a quote character
(single or double) opens a string token that runs to the matching quote
(the feed subset contains no backslash escapes), and operators munch one or
two characters per `tok_two`.  Fuel is the character count, which each step
strictly consumes. -/
def tokenizeGo : Nat → List Char → List (Tok × List Char)
  | 0, _ => [(Tok.ERRTOK, [])]
  | _ + 1, [] => [(Tok.ENDMARKER, [])]
  | n + 1, c :: rest =>
    if c = ' ' ∨ c = '\t' ∨ c = '\r' then tokenizeGo n rest
    else if c = '\n' then (Tok.NEWLINE, ['\n']) :: tokenizeGo n rest
    else if c.isAlpha ∨ c = '_' then
      (Tok.NAME, c :: rest.takeWhile isNameChar) :: tokenizeGo n (rest.dropWhile isNameChar)
    else if c.isDigit then
      (Tok.NUMBER, c :: rest.takeWhile Char.isDigit) :: tokenizeGo n (rest.dropWhile Char.isDigit)
    else if c = squote ∨ c = '"' then
      let content := rest.takeWhile (fun d => d ≠ c)
      match rest.drop content.length with
      | q :: r2 => (Tok.STRING, c :: content ++ [q]) :: tokenizeGo n r2
      | [] => [(Tok.ERRTOK, [c])]
    else
      match rest with
      | d :: r2 =>
        if tok_two c d then (Tok.OP, [c, d]) :: tokenizeGo n r2
        else (Tok.OP, [c]) :: tokenizeGo n rest
      | [] => (Tok.OP, [c]) :: tokenizeGo n rest

/-- The JavaScript literal keywords that `fixup_js_literal_with_comments`
leaves unquoted (line 387). -/
def jsKeywords : List (List Char) :=
  [String.toList "true", String.toList "false", String.toList "null",
   String.toList "-Infinity", String.toList "Infinity", String.toList "NaN"]

/-- The `.replace` escaping of embedded double quotes used by the
single-quoted-string repair (line 394). -/
def escDQ : List Char → List Char
  | [] => []
  | c :: rest => if c = '"' then '\\' :: '"' :: escDQ rest else c :: escDQ rest

/-- Embeds the token loop of `fixup_js_literal_with_comments` (lines
364-413).  The emitted-token list `result` is kept head-first (Python
`append` is cons, `result.pop()` is tail, with a final reverse); `sline`,
`mline` and `last` are the loop's `sline_comment`, `mline_comment` and
`last_token` state, updated exactly where the source updates them (in
particular `continue` paths that skip the trailing `last_token = tokval`
assignment leave `last` unchanged). -/
def fixupGo : List (Tok × List Char) → List (Tok × List Char) → Bool → Bool → List Char →
    List (Tok × List Char)
  | [], result, _, _, _ => result.reverse
  | (tokid, tokval) :: toks, result, sline, mline, last =>
    if sline then
      if tokid = Tok.NEWLINE ∨ tokid = Tok.NL then fixupGo toks result false mline last
      else fixupGo toks result true mline last
    else if mline then
      if last = ['*'] ∧ tokval = ['/'] then fixupGo toks result sline false tokval
      else fixupGo toks result sline true tokval
    else if tokid = Tok.NAME then
      if tokval ∈ jsKeywords then fixupGo toks ((tokid, tokval) :: result) sline mline tokval
      else
        let tv := '"' :: tokval ++ ['"']
        fixupGo toks ((Tok.STRING, tv) :: result) sline mline tv
    else if tokid = Tok.STRING then
      if tokval.head? = some squote then
        let tv := '"' :: escDQ ((tokval.drop 1).dropLast) ++ ['"']
        fixupGo toks ((Tok.STRING, tv) :: result) sline mline tv
      else fixupGo toks ((tokid, tokval) :: result) sline mline tokval
    else if tokid = Tok.OP ∧ (tokval = [rbrace] ∨ tokval = [']']) then
      let result1 := match result with
        | (_, tv) :: rs => if tv = [','] then rs else result
        | [] => result
      fixupGo toks ((tokid, tokval) :: result1) sline mline tokval
    else if tokval = ['/', '/'] then fixupGo toks result true mline last
    else if last = ['/'] ∧ tokval = ['*'] then fixupGo toks result.tail sline true last
    else fixupGo toks ((tokid, tokval) :: result) sline mline tokval

/-- Models `tokenize.untokenize` on 2-tuples (the compatibility mode): NAME
and NUMBER tokens get a trailing space, two consecutive STRING tokens are
separated by a space, everything else is concatenated (the token streams
here contain no INDENT/DEDENT). -/
def untokGo : List (Tok × List Char) → Bool → List Char
  | [], _ => []
  | (tokid, tokval) :: toks, prevstring =>
    let tv1 := if tokid = Tok.NAME ∨ tokid = Tok.NUMBER then tokval ++ [' '] else tokval
    let tv2 := if tokid = Tok.STRING ∧ prevstring then ' ' :: tv1 else tv1
    tv2 ++ untokGo toks (tokid == Tok.STRING)

/-- Embeds `fixup_js_literal_with_comments` (lines 359-415): tokenize,
run the repair loop, reassemble. -/
def fixup_js_literal_with_comments (s : String) : String :=
  let toks := tokenizeGo (s.toList.length + 1) s.toList
  String.mk (untokGo (fixupGo toks [] false false []) false)

/-- Decoded JSON values (`json.loads` output); objects are key/value lists
in document order, the shape `json.loads` produces for the feed's dicts. -/
inductive Json where
  | null
  | bool (b : Bool)
  | num (n : Int)
  | str (s : String)
  | arr (elems : List Json)
  | obj (members : List (String × Json))

/-- JSON inter-token whitespace. -/
def jsWs (c : Char) : Bool := c = ' ' || c = '\n' || c = '\t' || c = '\r'

/-- Drop leading JSON whitespace. -/
def skipWs (l : List Char) : List Char := l.dropWhile jsWs

/-- A JSON escape character (the subset `json.loads` accepts that the feed
can contain). -/
def unesc (d : Char) : Char := if d = 'n' then '\n' else if d = 't' then '\t' else d

/-- Parse the body of a JSON string after its opening quote, returning the
decoded content and the remainder after the closing quote. -/
def jsonStrBody : Nat → List Char → Option (List Char × List Char)
  | 0, _ => none
  | _ + 1, [] => none
  | n + 1, c :: rest =>
    if c = '"' then some ([], rest)
    else if c = '\\' then
      match rest with
      | d :: r2 => (jsonStrBody n r2).map (fun p => (unesc d :: p.1, p.2))
      | [] => none
    else (jsonStrBody n rest).map (fun p => (c :: p.1, p.2))

/-- Digit-string to number. -/
def digitsToNat (ds : List Char) : Nat := ds.foldl (fun a c => a * 10 + (c.toNat - 48)) 0

mutual

/-- Strict JSON value (integer-number subset, which is all the repaired
feed text contains). -/
def jsonVal : Nat → List Char → Option (Json × List Char)
  | 0, _ => none
  | n + 1, l0 =>
    match skipWs l0 with
    | [] => none
    | c :: rest =>
      if c = '"' then (jsonStrBody (n + 1) rest).map (fun p => (Json.str (String.mk p.1), p.2))
      else if c = lbrace then
        match skipWs rest with
        | d :: r2 =>
          if d = rbrace then some (Json.obj [], r2)
          else (jsonMembers n (d :: r2)).map (fun p => (Json.obj p.1, p.2))
        | [] => none
      else if c = '[' then
        match skipWs rest with
        | ']' :: r2 => some (Json.arr [], r2)
        | r2 => (jsonElems n r2).map (fun p => (Json.arr p.1, p.2))
      else if c = '-' then
        match rest.takeWhile Char.isDigit with
        | [] => none
        | ds => some (Json.num (-(digitsToNat ds : Int)), rest.dropWhile Char.isDigit)
      else if c.isDigit then
        some (Json.num (digitsToNat (c :: rest.takeWhile Char.isDigit)),
              rest.dropWhile Char.isDigit)
      else if (String.toList "true").isPrefixOf (c :: rest) then
        some (Json.bool true, rest.drop 3)
      else if (String.toList "false").isPrefixOf (c :: rest) then
        some (Json.bool false, rest.drop 4)
      else if (String.toList "null").isPrefixOf (c :: rest) then
        some (Json.null, rest.drop 3)
      else none

/-- One-or-more comma-separated array elements up to the closing bracket. -/
def jsonElems : Nat → List Char → Option (List Json × List Char)
  | 0, _ => none
  | n + 1, l0 => do
    let (v, r1) ← jsonVal n l0
    match skipWs r1 with
    | ',' :: r2 => (jsonElems n r2).map (fun p => (v :: p.1, p.2))
    | ']' :: r2 => some ([v], r2)
    | _ => none

/-- One-or-more comma-separated object members up to the closing brace. -/
def jsonMembers : Nat → List Char → Option (List (String × Json) × List Char)
  | 0, _ => none
  | n + 1, l0 =>
    match skipWs l0 with
    | '"' :: r1 => do
      let (k, r2) ← jsonStrBody (n + 1) r1
      match skipWs r2 with
      | ':' :: r3 => do
        let (v, r4) ← jsonVal n r3
        match skipWs r4 with
        | ',' :: r5 => (jsonMembers n r5).map (fun p => ((String.mk k, v) :: p.1, p.2))
        | d :: r5 => if d = rbrace then some ([(String.mk k, v)], r5) else none
        | [] => none
      | _ => none
    | _ => none

end

/-- Models strict `json.loads` (line 355) on the feed subset: one value,
optionally surrounded by whitespace, nothing else. -/
def json_loads (s : String) : Option Json :=
  match jsonVal (4 * s.toList.length + 8) s.toList with
  | some (v, rest) => if skipWs rest = [] then some v else none
  | none => none

/-- Embeds `load_data` (lines 340-357) minus the network fetch: the decoded
HTTP body is the argument, and the result is `json.loads` of the repaired
text (`none` models an uncaught decode error, the fatal feed-corrupt case). -/
def load_data (request : String) : Option Json :=
  let m1 := strip_initial_comment request
  let m2 := strip_callback_wrapper m1
  let m3 := strip_close_suffix m2
  json_loads (fixup_js_literal_with_comments m3)

/-! ### Concrete inputs used by counterexamples and witnesses -/

/-- The quasi-JSON round-trip input of spec §8 (built by concatenation so
that quote characters never appear inside a literal):
`callback(/* c */{a:1, [q]b[q]:[q]x[q], c:[1,2,],} // trailing\n);` with
`[q]` the single-quote character. -/
def c7_input : String :=
  "callback(/* c */" ++ String.mk [lbrace] ++ "a:1, " ++ String.mk [squote] ++ "b"
    ++ String.mk [squote] ++ ":" ++ String.mk [squote] ++ "x" ++ String.mk [squote]
    ++ ", c:[1,2,]," ++ String.mk [rbrace] ++ " // trailing\n);"

/-- The strict-JSON value the spec expects for `c7_input`. -/
def c7_expected : Json :=
  Json.obj [("a", Json.num 1), ("b", Json.str "x"), ("c", Json.arr [Json.num 1, Json.num 2])]

/-- A pricing feed whose only region is not the configured `us-west-2`. -/
def feedRegionAbsent : PriceFeed :=
  ⟨[⟨"us-east-1", [⟨[⟨"m3.medium", "0.070"⟩]⟩]⟩]⟩

/-- A pricing feed with the configured region but without the requested
instance type. -/
def feedTypeAbsent : PriceFeed :=
  ⟨[⟨"us-west-2", [⟨[⟨"c4.large", "0.100"⟩]⟩]⟩]⟩

/-- An on-demand launch configuration used by several witnesses: spot price
absent, created at time 0. -/
def cfgC1 : LaunchConfig :=
  { name := "web-lc", instanceType := "m3.medium", spotPrice := none,
    createdTime := some 0, userData := "UD", monitoringEnabled := true, arn := none }

/-- A managed group referencing `cfgC1`. -/
def asgC1 : ASG :=
  { name := "grp", lcName := "web-lc", zones := ["us-west-2a"],
    tags := [{ key := "enable-spot-manager", value := "true" }], metricsEnabled := true }

/-- An environment in which the minimum zone spot price (1) equals the
on-demand price (1) and the configuration is 100 seconds old. -/
def envC1 : Env :=
  { now := 100, launchConfigs := [cfgC1], spotRequests := [],
    zoneQuote := fun _ _ => some 1, odPriceOf := fun _ => 1, b64decode := fun s => s }

/-- A spot launch configuration (bid price present). -/
def cfgSpotC6 : LaunchConfig :=
  { name := "good-lc", instanceType := "m3.medium", spotPrice := some 1,
    createdTime := some 0, userData := "UD", monitoringEnabled := true, arn := none }

/-- A managed group whose launch-configuration name resolves to nothing. -/
def gBadC6 : ASG :=
  { name := "bad", lcName := "ghost-lc", zones := ["z"],
    tags := [{ key := "enable-spot-manager", value := "true" }], metricsEnabled := true }

/-- A healthy managed group referencing `cfgSpotC6`. -/
def gGoodC6 : ASG :=
  { name := "good", lcName := "good-lc", zones := ["z"],
    tags := [{ key := "enable-spot-manager", value := "true" }], metricsEnabled := true }

/-- An environment containing only the healthy group's configuration. -/
def envC6 : Env :=
  { now := 100, launchConfigs := [cfgSpotC6], spotRequests := [],
    zoneQuote := fun _ _ => some 1, odPriceOf := fun _ => 1, b64decode := fun s => s }

/-- The same configuration contents as `cfgC1` under a different name
(for the renaming-independence witness of the classifier). -/
def cfgC9 : LaunchConfig :=
  { name := "renamed-lc", instanceType := "c4.large", spotPrice := none,
    createdTime := some 5, userData := "UD2", monitoringEnabled := false, arn := some "a" }

/-- A group with different tags referencing `cfgC9`. -/
def asgC9 : ASG :=
  { name := "other", lcName := "renamed-lc", zones := ["z9"],
    tags := [], metricsEnabled := false }

/-- Environment for the classifier-independence witness. -/
def envC9 : Env :=
  { now := 7, launchConfigs := [cfgC9], spotRequests := [],
    zoneQuote := fun _ _ => none, odPriceOf := fun _ => 2, b64decode := fun s => s }

/-- An environment in which every per-zone spot quote raises a provider
error, so the surviving price list is empty. -/
def envC10 : Env :=
  { now := 100, launchConfigs := [cfgC1], spotRequests := [],
    zoneQuote := fun _ _ => none, odPriceOf := fun _ => 1, b64decode := fun s => s }

/-! ### Helper lemmas -/

lemma mk_toList (s : String) : String.mk s.toList = s := rfl

lemma toList_mk (l : List Char) : (String.mk l).toList = l := rfl

lemma toList_append (s t : String) : (s ++ t).toList = s.toList ++ t.toList := rfl

lemma dropWhile_star_of_head (l : List Char) (h : l.head? ≠ some '*') :
    l.dropWhile (fun c => c = '*') = l := by
  cases l with
  | nil => rfl
  | cons a as =>
    have ha : ¬ (a = '*') := by
      intro e; exact h (by simp [e])
    simp [List.dropWhile_cons, ha]

lemma head_dropWhile_star (l : List Char) (a : Char)
    (h : (l.dropWhile (fun c => c = '*')).head? = some a) : a ≠ '*' := by
  induction l with
  | nil => simp [List.dropWhile] at h
  | cons b bs ih =>
    by_cases hb : b = '*'
    · exact ih (by simpa [List.dropWhile_cons, hb] using h)
    · have : a = b := by simpa [List.dropWhile_cons, hb] using h.symm
      simpa [this] using hb

lemma getLast_stripStarL (l : List Char) : (stripStarL l).getLast? ≠ some '*' := by
  intro h
  unfold stripStarL at h
  rw [List.getLast?_reverse] at h
  exact head_dropWhile_star _ _ h rfl

lemma stripStarL_append_star (l : List Char) (h1 : l.head? ≠ some '*')
    (h2 : l.getLast? ≠ some '*') : stripStarL (l ++ ['*']) = l := by
  unfold stripStarL
  cases l with
  | nil => simp [List.dropWhile_cons]
  | cons a as =>
    have ha : ¬ (a = '*') := by intro e; exact h1 (by simp [e])
    have hd : ((a :: as) ++ ['*']).dropWhile (fun c => c = '*') = (a :: as) ++ ['*'] := by
      simp [List.dropWhile_cons, ha]
    rw [hd]
    have hr : ((a :: as) ++ ['*']).reverse = '*' :: (a :: as).reverse := by simp
    rw [hr]
    have hs : ('*' :: (a :: as).reverse).dropWhile (fun c => c = '*')
        = (a :: as).reverse.dropWhile (fun c => c = '*') := by
      simp [List.dropWhile_cons]
    rw [hs]
    have hh : (a :: as).reverse.head? ≠ some '*' := by
      rw [List.head?_reverse]; exact h2
    rw [dropWhile_star_of_head _ hh, List.reverse_reverse]

/-- The derived clone name always differs from the source name (appending
grows the name; stripping removes at least the trailing marker). -/
lemma toggle_ne (s : String) : toggle_lc_name s ≠ s := by
  unfold toggle_lc_name
  by_cases h : pyEndsWithStar s = true
  · rw [if_pos h]
    intro he
    have hl : stripStarL s.toList = s.toList := congrArg String.toList he
    have h2 : s.toList.getLast? = some '*' := by
      have := of_decide_eq_true h
      exact this
    rw [← hl] at h2
    exact getLast_stripStarL _ h2
  · rw [if_neg h]
    intro he
    have : (s ++ "*").length = s.length := congrArg String.length he
    simp [String.length_append] at this
    exact absurd this (by decide)

/-- Double application of the name derivation returns the original name,
provided the name neither begins with the marker nor ends with two
markers. -/
lemma toggle_toggle (s : String) (h1 : s.toList.head? ≠ some '*')
    (h2 : s.toList.reverse.take 2 ≠ ['*', '*']) :
    toggle_lc_name (toggle_lc_name s) = s := by
  by_cases hE : s.toList.getLast? = some '*'
  · obtain ⟨r, hrev⟩ : ∃ r, s.toList.reverse = '*' :: r := by
      cases hr : s.toList.reverse with
      | nil =>
        exfalso
        have : s.toList = [] := by
          have := congrArg List.reverse hr
          simpa using this
        rw [this] at hE; simp at hE
      | cons c r =>
        have : c = '*' := by
          have hh : s.toList.reverse.head? = some '*' := by
            rw [List.head?_reverse]; exact hE
          rw [hr] at hh; simpa using hh
        exact ⟨r, by rw [this]⟩
    have hrhead : r.head? ≠ some '*' := by
      cases r with
      | nil => simp
      | cons c r' =>
        intro hc
        have hc' : c = '*' := by simpa using hc
        rw [hrev, hc'] at h2
        simp at h2
    have hstrip : stripStarL s.toList = r.reverse := by
      unfold stripStarL
      rw [dropWhile_star_of_head _ h1]
      rw [hrev]
      have hs : ('*' :: r).dropWhile (fun c => c = '*') = r.dropWhile (fun c => c = '*') := by
        simp [List.dropWhile_cons]
      rw [hs, dropWhile_star_of_head _ hrhead]
    have hEB : pyEndsWithStar s = true := by
      unfold pyEndsWithStar; exact decide_eq_true hE
    have h1step : toggle_lc_name s = String.mk r.reverse := by
      unfold toggle_lc_name
      rw [if_pos hEB]
      unfold pyStripStar
      rw [hstrip]
    rw [h1step]
    have hEB2 : pyEndsWithStar (String.mk r.reverse) = false := by
      unfold pyEndsWithStar
      rw [toList_mk]
      rw [List.getLast?_reverse]
      simp only [decide_eq_false_iff_not]
      exact hrhead
    unfold toggle_lc_name
    rw [hEB2]
    simp only [Bool.false_eq_true, if_false]
    have hfin : s.toList = r.reverse ++ ['*'] := by
      have := congrArg List.reverse hrev
      simpa using this
    apply String.ext
    show r.reverse ++ ['*'] = s.toList
    exact hfin.symm
  · have hEB : pyEndsWithStar s = false := by
      unfold pyEndsWithStar
      simp only [decide_eq_false_iff_not]
      exact hE
    unfold toggle_lc_name
    rw [hEB]
    simp only [Bool.false_eq_true, if_false]
    have hendTrue : pyEndsWithStar (s ++ "*") = true := by
      unfold pyEndsWithStar
      apply decide_eq_true
      show (s ++ "*").toList.getLast? = some '*'
      rw [toList_append]
      simp [List.getLast?_append]
    rw [if_pos hendTrue]
    unfold pyStripStar
    have : (s ++ "*").toList = s.toList ++ ['*'] := rfl
    rw [this, stripStarL_append_star _ h1 hE]
    exact mk_toList s

/-- Evaluation of the on-demand branch of `manage_group`: with the group's
configuration resolved, carrying no bid price, and a non-empty zone price
list, the decision is the source's three-way table (strictly-cheaper check
first, then the cooldown gate). -/
lemma manage_group_on_demand_eval (env : Env) (lookback delay : ℚ) (asg : ASG)
    (cfg : LaunchConfig) (m ct : ℚ)
    (hlc : get_launch_config env asg.lcName = some cfg)
    (hod : cfg.spotPrice = none)
    (hmin : pyMin (get_zone_spot_prices env cfg.instanceType asg.zones) = some m)
    (hct : cfg.createdTime = some ct) :
    manage_group env lookback delay asg =
      Except.ok (if m > env.odPriceOf cfg.instanceType then Decision.noAction
        else if env.now - ct > delay then Decision.toSpot else Decision.noAction) := by
  unfold manage_group is_asg_currently_spot is_spot_greater_than_on_demand time_since_lc_update
  rw [hlc]
  dsimp only
  rw [hod, hmin, hct]
  simp only [Option.isSome_none, Bind.bind, Except.bind, Bool.false_eq_true, if_false]
  by_cases hgt : m > env.odPriceOf cfg.instanceType
  · rw [if_pos hgt, if_pos hgt]
    rfl
  · rw [if_neg hgt, if_neg hgt]
    by_cases hage : env.now - ct > delay
    · rw [if_pos hage, if_pos hage]
      rfl
    · rw [if_neg hage, if_neg hage]
      rfl

/-- A group whose configuration name resolves to nothing makes
`manage_group` raise the membership-test TypeError. -/
lemma manage_group_missing_lc (env : Env) (lookback delay : ℚ) (g : ASG)
    (hlc : get_launch_config env g.lcName = none) :
    manage_group env lookback delay g = Except.error PyError.typeError := by
  unfold manage_group is_asg_currently_spot
  rw [hlc]
  rfl

/-! ### Claim theorems -/

/-- C4 counterexample: the claim quantifies over every launch-configuration
name and asserts that the derivation toggles a single trailing marker, so
applying it twice returns the original.  Python `strip` removes all leading
and trailing markers at once: `web-lc**` derives to `web-lc` (not
`web-lc*`), and a second application yields `web-lc*`, not `web-lc**`. -/
theorem claim_C4_counterexample :
    toggle_lc_name "web-lc**" = "web-lc" ∧
    toggle_lc_name (toggle_lc_name "web-lc**") ≠ "web-lc**" := by
  decide

/-- C4 amended: the derivation appends the marker when the name does not
end with it and otherwise strips ALL leading and trailing markers; for
every name that neither begins with the marker nor ends with two or more
markers, applying the derivation twice returns the original name, and one
application always yields a different name (so such names alternate between
exactly two stable values, e.g. `web-lc` and `web-lc*`). -/
theorem claim_C4_amended (s : String) (h1 : s.toList.head? ≠ some '*')
    (h2 : s.toList.reverse.take 2 ≠ ['*', '*']) :
    toggle_lc_name (toggle_lc_name s) = s ∧ toggle_lc_name s ≠ s :=
  ⟨toggle_toggle s h1 h2, toggle_ne s⟩

/-- C4 witness: the amended statement evaluated at `web-lc`. -/
theorem claim_C4_witness :
    ("web-lc".toList.head? ≠ some '*') ∧
    ("web-lc".toList.reverse.take 2 ≠ ['*', '*']) ∧
    (toggle_lc_name (toggle_lc_name "web-lc") = "web-lc" ∧
      toggle_lc_name "web-lc" ≠ "web-lc") :=
  ⟨by decide, by decide, claim_C4_amended "web-lc" (by decide) (by decide)⟩

/-- C5 (code bug): the claim — matching the source's own error prints and
`return False` — says an absent region or instance type yields an error
value without an unhandled exception.  In the code the locals `types` and
`od_price` are only bound inside the matching branches, so the `if not
types` / `if not od_price` guards raise `UnboundLocalError` precisely in
the absent-region and absent-instance-type cases; the lookup only returns
normally when the data is present (third conjunct). -/
theorem claim_C5_bug :
    get_od_price_from_response feedRegionAbsent "us-west-2" "m3.medium"
      = Except.error PyError.unboundLocal ∧
    get_od_price_from_response feedTypeAbsent "us-west-2" "m3.medium"
      = Except.error PyError.unboundLocal ∧
    get_od_price_from_response feedTypeAbsent "us-west-2" "c4.large"
      = Except.ok (some "0.100") :=
  ⟨rfl, rfl, rfl⟩

/-- C7: the full repair pipeline (wrapper stripping, tokenizer-level
comment/quote/trailing-comma fixup, strict JSON decode) maps the spec's
round-trip input to exactly the expected JSON value. -/
theorem claim_C7 : load_data c7_input = some c7_expected := by
  rfl

/-- C1 counterexample: with the minimum zone spot price exactly equal to
the on-demand price and the cooldown elapsed, the claim requires no-action
(spot not cheaper, `≥` branch), but the code's strict `>` test falls
through and `manage_group` migrates the group to spot. -/
theorem claim_C1_counterexample :
    pyMin (get_zone_spot_prices envC1 cfgC1.instanceType asgC1.zones)
        = some (envC1.odPriceOf cfgC1.instanceType) ∧
    manage_group envC1 300 60 asgC1 = Except.ok Decision.toSpot := by
  refine ⟨rfl, ?_⟩
  have he := manage_group_on_demand_eval envC1 300 60 asgC1 cfgC1 1 0 rfl rfl rfl rfl
  rw [he]
  have h1 : ¬ ((1:ℚ) > envC1.odPriceOf cfgC1.instanceType) := by
    show ¬ ((1:ℚ) > 1)
    norm_num
  have h2 : envC1.now - 0 > (60:ℚ) := by
    show (100:ℚ) - 0 > 60
    norm_num
  rw [if_neg h1, if_pos h2]

/-- C1 amended: for an ON_DEMAND group with a resolvable configuration and
at least one surviving zone quote, the decision table uses a STRICT
comparison: minimum spot price strictly greater than the on-demand price
gives no-action; minimum spot price less than OR EQUAL to the on-demand
price migrates to spot once the configuration age exceeds
`lc_switching_delay`, and gives no-action inside the cooldown. -/
theorem claim_C1_amended (env : Env) (lookback delay : ℚ) (asg : ASG)
    (cfg : LaunchConfig) (m ct : ℚ)
    (hlc : get_launch_config env asg.lcName = some cfg)
    (hod : cfg.spotPrice = none)
    (hmin : pyMin (get_zone_spot_prices env cfg.instanceType asg.zones) = some m)
    (hct : cfg.createdTime = some ct) :
    (m > env.odPriceOf cfg.instanceType →
      manage_group env lookback delay asg = Except.ok Decision.noAction) ∧
    (m ≤ env.odPriceOf cfg.instanceType → env.now - ct > delay →
      manage_group env lookback delay asg = Except.ok Decision.toSpot) ∧
    (m ≤ env.odPriceOf cfg.instanceType → env.now - ct ≤ delay →
      manage_group env lookback delay asg = Except.ok Decision.noAction) := by
  have he := manage_group_on_demand_eval env lookback delay asg cfg m ct hlc hod hmin hct
  refine ⟨?_, ?_, ?_⟩
  · intro hgt
    rw [he, if_pos hgt]
  · intro hle hage
    rw [he, if_neg (not_lt.mpr hle), if_pos hage]
  · intro hle hage
    rw [he, if_neg (not_lt.mpr hle), if_neg (not_lt.mpr hage)]

/-- C1 witness: the amended table evaluated in `envC1` (cheaper-or-equal
spot, cooldown elapsed, migrate to spot). -/
theorem claim_C1_witness :
    manage_group envC1 300 60 asgC1 = Except.ok Decision.toSpot :=
  (claim_C1_amended envC1 300 60 asgC1 cfgC1 1 0 rfl rfl rfl rfl).2.1
    (le_refl 1) (by show (100:ℚ) - 0 > 60; norm_num)

/-- C2: the denial detector returns true exactly when some visible spot
request carries the group's back-reference tag, has its status update
strictly inside the lookback window, and has a code in the fixed
six-element denial set; with no tagged requests the right side is empty, so
the detector returns false (a total function, not an error). -/
theorem claim_C2 (env : Env) (lookback : ℚ) (asg_name : String) :
    denial_statuses.length = 6 ∧
    (check_spot_requests env lookback asg_name = true ↔
      ∃ r ∈ env.spotRequests, request_tag_matches asg_name r = true ∧
        env.now - r.status.updateTime < lookback ∧ r.status.code ∈ denial_statuses) := by
  refine ⟨rfl, ?_⟩
  have hform : check_spot_requests env lookback asg_name =
      (env.spotRequests.filter (request_tag_matches asg_name)).any (fun r =>
        decide (env.now - r.status.updateTime < lookback) &&
          decide (r.status.code ∈ denial_statuses)) := by
    unfold check_spot_requests
    by_cases h : (env.spotRequests.filter (request_tag_matches asg_name)).isEmpty
    · rw [if_pos h]
      rw [List.isEmpty_iff] at h
      rw [h]
      rfl
    · rw [if_neg h]
  rw [hform]
  rw [List.any_eq_true]
  constructor
  · rintro ⟨r, hr, hp⟩
    rw [List.mem_filter] at hr
    refine ⟨r, hr.1, hr.2, ?_⟩
    simpa using hp
  · rintro ⟨r, hr, htag, hwin, hcode⟩
    refine ⟨r, ?_, ?_⟩
    · rw [List.mem_filter]; exact ⟨hr, htag⟩
    · simp [hwin, hcode]

/-- C3: in both migration directions, when the post-creation verification
re-fetch cannot find the clone by its new name (creation not yet visible
and no configuration of that name pre-exists), the routine returns early
with the provider state and the group untouched: the group still references
its original launch configuration and the old configuration is not
deleted. -/
theorem claim_C3 (env : Env) (asg : ASG) (cfg : LaunchConfig)
    (hlc : get_launch_config env asg.lcName = some cfg)
    (hname : cfg.name ≠ "") (huser : cfg.userData ≠ "")
    (hver : get_launch_config env (toggle_lc_name cfg.name) = none) :
    switch_to_spot env asg false = Except.ok (env, asg) ∧
    switch_to_on_demand env asg false = Except.ok (env, asg) := by
  constructor
  · unfold switch_to_spot removeEmpty create_launch_configuration
    rw [hlc]
    dsimp only
    rw [if_neg hname, if_neg huser]
    simp only [Bool.false_eq_true, if_false]
    rw [hver]
  · unfold switch_to_on_demand removeEmpty create_launch_configuration
    rw [hlc]
    dsimp only
    rw [if_neg hname, if_neg huser]
    simp only [Bool.false_eq_true, if_false]
    rw [hver]

/-- C3 witness: the fail-safe abort evaluated in `envC1` (the clone name
`web-lc*` is absent). -/
theorem claim_C3_witness :
    switch_to_spot envC1 asgC1 false = Except.ok (envC1, asgC1) ∧
    switch_to_on_demand envC1 asgC1 false = Except.ok (envC1, asgC1) :=
  claim_C3 envC1 asgC1 cfgC1 rfl (by decide) (by decide) rfl

/-- C6 counterexample: the healthy group `gGoodC6` is manageable on its own
(first conjunct), yet a run over a stale-referenced group followed by the
healthy one aborts with the TypeError raised for the stale group — the
healthy group is never reconciled, contradicting the claimed
skip-and-continue behaviour. -/
theorem claim_C6_counterexample :
    manage_group envC6 300 60 gGoodC6 = Except.ok Decision.noAction ∧
    run envC6 "enable-spot-manager" 300 60 [gBadC6, gGoodC6]
      = Except.error PyError.typeError := ⟨rfl, rfl⟩

/-- C6 amended: a managed group whose active launch-configuration name does
not appear in the configuration list makes its cycle raise an unhandled
TypeError (the sentinel `False` returned by the lookup is membership-tested),
and `run` contains no per-group exception handling, so the whole fleet
iteration aborts at that group instead of skipping it. -/
theorem claim_C6_amended (env : Env) (asgTag : String) (lookback delay : ℚ)
    (g : ASG) (rest : List ASG)
    (htag : g.tags.any (fun t => t.key = asgTag && t.value = "true") = true)
    (hlc : get_launch_config env g.lcName = none) :
    run env asgTag lookback delay (g :: rest) = Except.error PyError.typeError := by
  unfold run build_tagged_ASG_list
  simp only [List.filter_cons, htag, if_true]
  rw [List.foldlM_cons]
  rw [manage_group_missing_lc env lookback delay g hlc]
  rfl

/-- C6 witness: the amended statement evaluated on the concrete
two-group fleet. -/
theorem claim_C6_witness :
    run envC6 "enable-spot-manager" 300 60 [gBadC6, gGoodC6]
      = Except.error PyError.typeError :=
  claim_C6_amended envC6 "enable-spot-manager" 300 60 gBadC6 [gGoodC6] (by decide) rfl

/-- C8: on a successful migration to spot the provider ends up holding a
clone named with the toggled name whose `SpotPrice` equals exactly the
on-demand price the pricing oracle resolves for the configuration's
instance type; on a successful migration to on-demand the clone carries no
`SpotPrice` at all. -/
theorem claim_C8 (env : Env) (asg : ASG) (cfg : LaunchConfig)
    (hlc : get_launch_config env asg.lcName = some cfg)
    (hname : cfg.name ≠ "") (huser : cfg.userData ≠ "") :
    (∃ out, switch_to_spot env asg true = Except.ok out ∧
      ∃ lc ∈ out.1.launchConfigs, lc.name = toggle_lc_name cfg.name ∧
        lc.spotPrice = some (env.odPriceOf cfg.instanceType)) ∧
    (∃ out, switch_to_on_demand env asg true = Except.ok out ∧
      ∃ lc ∈ out.1.launchConfigs, lc.name = toggle_lc_name cfg.name ∧
        lc.spotPrice = none) := by
  constructor
  · unfold switch_to_spot removeEmpty create_launch_configuration
    rw [hlc]
    dsimp only
    rw [if_neg hname, if_neg huser]
    simp only [if_true]
    set reg : LaunchConfig :=
      { cfg with
        name := toggle_lc_name cfg.name
        userData := env.b64decode cfg.userData
        arn := none
        createdTime := some env.now
        spotPrice := some (env.odPriceOf cfg.instanceType) } with hreg
    cases hfind : get_launch_config
        { env with launchConfigs := env.launchConfigs ++ [reg] } (toggle_lc_name cfg.name) with
    | none =>
      exfalso
      unfold get_launch_config at hfind
      rw [List.find?_eq_none] at hfind
      have hmem : reg ∈ env.launchConfigs ++ [reg] := by
        simp
      have := hfind reg hmem
      simp [hreg] at this
    | some lc2 =>
      refine ⟨_, rfl, ?_⟩
      refine ⟨reg, ?_, by rw [hreg], by rw [hreg]⟩
      show reg ∈ (delete_launch_configuration _ cfg.name).launchConfigs
      unfold delete_launch_configuration
      refine List.mem_filter.mpr ⟨by simp, ?_⟩
      apply decide_eq_true
      rw [hreg]
      exact toggle_ne cfg.name
  · unfold switch_to_on_demand removeEmpty create_launch_configuration
    rw [hlc]
    dsimp only
    rw [if_neg hname, if_neg huser]
    simp only [if_true]
    set reg : LaunchConfig :=
      { cfg with
        name := toggle_lc_name cfg.name
        userData := env.b64decode cfg.userData
        arn := none
        createdTime := some env.now
        spotPrice := none } with hreg
    cases hfind : get_launch_config
        { env with launchConfigs := env.launchConfigs ++ [reg] } (toggle_lc_name cfg.name) with
    | none =>
      exfalso
      unfold get_launch_config at hfind
      rw [List.find?_eq_none] at hfind
      have hmem : reg ∈ env.launchConfigs ++ [reg] := by
        simp
      have := hfind reg hmem
      simp [hreg] at this
    | some lc2 =>
      refine ⟨_, rfl, ?_⟩
      refine ⟨reg, ?_, by rw [hreg], by rw [hreg]⟩
      show reg ∈ (delete_launch_configuration _ cfg.name).launchConfigs
      unfold delete_launch_configuration
      refine List.mem_filter.mpr ⟨by simp, ?_⟩
      apply decide_eq_true
      rw [hreg]
      exact toggle_ne cfg.name

/-- C8 witness: the bid-at-parity clone property evaluated in `envC1`. -/
theorem claim_C8_witness :
    (∃ out, switch_to_spot envC1 asgC1 true = Except.ok out ∧
      ∃ lc ∈ out.1.launchConfigs, lc.name = toggle_lc_name cfgC1.name ∧
        lc.spotPrice = some (envC1.odPriceOf cfgC1.instanceType)) ∧
    (∃ out, switch_to_on_demand envC1 asgC1 true = Except.ok out ∧
      ∃ lc ∈ out.1.launchConfigs, lc.name = toggle_lc_name cfgC1.name ∧
        lc.spotPrice = none) :=
  claim_C8 envC1 asgC1 cfgC1 rfl (by decide) (by decide)

/-- C9: the mode classification is purely structural: for a resolvable
configuration it is exactly the presence of the bid-price field, and any
two groups whose resolved configurations agree on bid-price presence are
classified identically, whatever their names, tags or other fields. -/
theorem claim_C9 (env : Env) (asg : ASG) (cfg : LaunchConfig)
    (hlc : get_launch_config env asg.lcName = some cfg) :
    is_asg_currently_spot env asg = Except.ok cfg.spotPrice.isSome ∧
    (∀ env2 asg2 cfg2, get_launch_config env2 asg2.lcName = some cfg2 →
      cfg2.spotPrice.isSome = cfg.spotPrice.isSome →
      is_asg_currently_spot env2 asg2 = is_asg_currently_spot env asg) := by
  constructor
  · unfold is_asg_currently_spot
    rw [hlc]
  · intro env2 asg2 cfg2 hlc2 hsp
    unfold is_asg_currently_spot
    rw [hlc, hlc2]
    dsimp only
    rw [hsp]

/-- C9 witness: classification evaluated in `envC1`, and independence
between two groups with different configuration names, tags and ancillary
fields but the same bid-price presence. -/
theorem claim_C9_witness :
    is_asg_currently_spot envC1 asgC1 = Except.ok cfgC1.spotPrice.isSome ∧
    is_asg_currently_spot envC9 asgC9 = is_asg_currently_spot envC1 asgC1 :=
  ⟨(claim_C9 envC1 asgC1 cfgC1 rfl).1,
   (claim_C9 envC1 asgC1 cfgC1 rfl).2 envC9 asgC9 cfgC9 rfl rfl⟩

/-- C10: the surviving zone price list contains exactly the quotes of the
zones whose provider call succeeded; when it is empty (all zones failed or
no zones) the price comparison raises the empty-sequence ValueError instead
of producing a decision, and when it is non-empty a boolean decision is
produced. -/
theorem claim_C10 (env : Env) (asg : ASG) (cfg : LaunchConfig)
    (hlc : get_launch_config env asg.lcName = some cfg) :
    (∀ q : ℚ, q ∈ get_zone_spot_prices env cfg.instanceType asg.zones ↔
      ∃ z ∈ asg.zones, env.zoneQuote cfg.instanceType z = some q) ∧
    (get_zone_spot_prices env cfg.instanceType asg.zones = [] →
      is_spot_greater_than_on_demand env asg = Except.error PyError.valueError) ∧
    (get_zone_spot_prices env cfg.instanceType asg.zones ≠ [] →
      ∃ b, is_spot_greater_than_on_demand env asg = Except.ok b) := by
  refine ⟨?_, ?_, ?_⟩
  · intro q
    unfold get_zone_spot_prices
    rw [List.mem_filterMap]
  · intro hempty
    unfold is_spot_greater_than_on_demand
    rw [hlc]
    dsimp only
    rw [hempty]
    rfl
  · intro hne
    unfold is_spot_greater_than_on_demand
    rw [hlc]
    dsimp only
    cases hzp : get_zone_spot_prices env cfg.instanceType asg.zones with
    | nil => exact absurd hzp hne
    | cons p ps =>
      simp only [pyMin]
      by_cases hgt : ps.foldl min p > env.odPriceOf cfg.instanceType
      · exact ⟨true, by rw [if_pos hgt]⟩
      · exact ⟨false, by rw [if_neg hgt]⟩

/-- C10 witness: in `envC10` every zone call fails, the surviving list is
empty, and the comparison raises the ValueError. -/
theorem claim_C10_witness :
    get_zone_spot_prices envC10 cfgC1.instanceType asgC1.zones = [] ∧
    is_spot_greater_than_on_demand envC10 asgC1 = Except.error PyError.valueError :=
  ⟨rfl, (claim_C10 envC10 asgC1 cfgC1 rfl).2.1 rfl⟩

end ASM
